import Mathlib

/-!
Shallow embedding of the openclaw-relay event pipeline (Go) and proofs about it.

Covered source:
  * internal/webhook trello handler: `matchCondition`, `findRule`, `renderMessage`,
    `ServeHTTP` control flow;
  * internal/webhook github handler: `ServeHTTP` control flow;
  * internal/ratelimit: `Limiter.Allow`;
  * internal/gmail poller: `matchRule`, `evaluateRules`, `executeNotify`, `poll`.

Go strings are modelled as Lean `String` (lists of characters); the byte-level
Go string functions used by the source (`strings.Split`, `strings.Contains`,
`strings.Index`/`LastIndex` of the ASCII quote, `strings.TrimSpace`,
`strings.ToLower`, `strings.HasPrefix`/`HasSuffix`) are re-implemented below on
`List Char` with the same observable behaviour on the data the program handles.
External collaborators (the crypto signature comparison, Go text/template, the
Gmail API, the execution gateway, the wall clock) are modelled as explicit
parameters, exactly as the spec's interface section prescribes.
-/

namespace OpenclawRelay

/-- Character used for single-quoted literals in rule conditions (ASCII 39). -/
def chQuote : Char := Char.ofNat 39

/-- ASCII whitespace recognised by the model of Go `strings.TrimSpace`. -/
def isSpaceChar (c : Char) : Bool := c = ' ' || c = '\t' || c = '\n' || c = '\r'

/-- Model of Go `strings.TrimSpace` on the character list of a string. -/
def trimSeq (s : List Char) : List Char :=
  ((s.dropWhile isSpaceChar).reverse.dropWhile isSpaceChar).reverse

/-- If `sep` is a prefix of `s`, return the remainder, else `none`. -/
def dropSep? : List Char → List Char → Option (List Char)
  | [], rest => some rest
  | _ :: _, [] => none
  | a :: as, b :: bs => if a = b then dropSep? as bs else none

/-- Model of Go `strings.HasPrefix` (argument order: pattern, string). -/
def startsWithSeq (sub s : List Char) : Bool := (dropSep? sub s).isSome

/-- Model of Go `strings.Contains` (argument order: pattern, string). -/
def containsSeq (sub : List Char) : List Char → Bool
  | [] => decide (sub = [])
  | c :: rest => startsWithSeq sub (c :: rest) || containsSeq sub rest

/-- Model of Go `strings.HasSuffix` (argument order: pattern, string). -/
def endsWithSeq (sub s : List Char) : Bool := startsWithSeq sub.reverse s.reverse

/-- Helper for `splitFuel`: prepend a character to the first piece. -/
def consHead (c : Char) : List (List Char) → List (List Char)
  | [] => [[c]]
  | r :: rs => (c :: r) :: rs

/-- Fuel-driven worker for `splitGo`; fuel is the length of the string, and a
non-empty separator consumes at least one character per step. -/
def splitFuel (sep : List Char) : Nat → List Char → List (List Char)
  | 0, s => [s]
  | _ + 1, [] => [[]]
  | fuel + 1, c :: rest =>
    match dropSep? sep (c :: rest) with
    | some rest2 => [] :: splitFuel sep fuel rest2
    | none => consHead c (splitFuel sep fuel rest)

/-- Model of Go `strings.Split` around a non-empty separator. -/
def splitGo (sep s : List Char) : List (List Char) := splitFuel sep s.length s

/-- Index of the first occurrence of a character, model of Go `strings.Index`
for a one-character pattern. -/
def idxOf? (t : Char) : List Char → Option Nat
  | [] => none
  | c :: rest => if c = t then some 0 else (idxOf? t rest).map (· + 1)

/-- Index of the last occurrence of a character, model of Go `strings.LastIndex`
for a one-character pattern. -/
def lastIdxOf? (t : Char) (s : List Char) : Option Nat :=
  (idxOf? t s.reverse).map (fun i => s.length - 1 - i)

/-- Model of Go `strings.ToLower` (the program only feeds it ASCII data). -/
def lowerSeq (s : List Char) : List Char := s.map Char.toLower

/-- The substring of `part` strictly between the first and the last single
quote, provided the last quote comes after the first — the literal extraction
of `TrelloHandler.matchCondition` (`start := Index(part, quote)`,
`end := LastIndex(part, quote)`, `part[start+1:end]`). -/
def extractQuoted (part : List Char) : Option (List Char) :=
  match idxOf? chQuote part, lastIdxOf? chQuote part with
  | some i, some j => if i < j then some ((part.drop (i + 1)).take (j - i - 1)) else none
  | _, _ => none

/-- The logical-OR delimiter of the condition language. -/
def orSep : List Char := ['|', '|']

/-- The fixed clause head the condition evaluator looks for, the Go string
literal "list ==" (one space between the fact name and the operator). -/
def eqPat : List Char := ['l', 'i', 's', 't', ' ', '=', '=']

/-- Embedding of `TrelloHandler.matchCondition`: empty condition matches;
otherwise split on the OR delimiter, trim each clause, keep clauses containing
the literal "list ==", extract the single-quoted literal and compare with the
list name; any matching clause makes the condition match. -/
def matchCondition (condition listName : String) : Bool :=
  if condition = "" then true
  else
    (splitGo orSep condition.data).any fun part0 =>
      let part := trimSeq part0
      if containsSeq eqPat part then
        match extractQuoted part with
        | some val => decide (val = listName.data)
        | none => false
      else false

/-- Embedding of `config.RuleAction`. -/
structure RuleAction where
  kind : String
  timeout : Nat
  delay : Nat
  agentID : String
  messageTemplate : String
deriving DecidableEq, Repr

/-- Embedding of `config.TrelloRule`. -/
structure TrelloRule where
  event : String
  condition : String
  action : RuleAction
deriving DecidableEq, Repr

/-- Eligibility test used by `TrelloHandler.findRule` for one rule. -/
def ruleMatches (eventType listName : String) (r : TrelloRule) : Bool :=
  decide (r.event = eventType) && matchCondition r.condition listName

/-- Embedding of `TrelloHandler.findRule`: scan the rules in declared order and
return the first whose event kind and condition both match. -/
def findRule (rules : List TrelloRule) (eventType listName : String) : Option TrelloRule :=
  rules.find? (ruleMatches eventType listName)

/-- Embedding of `ratelimit.Limiter`: the fixed ttl plus the key-to-timestamp
map (an association list; the most recent binding for a key shadows older
ones, matching Go map update). Time is passed explicitly as a natural. -/
structure Limiter where
  ttl : Nat
  seen : List (String × Nat)
deriving DecidableEq, Repr

/-- Lookup of a key in the dedup map. -/
def lookupKey (seen : List (String × Nat)) (key : String) : Option Nat :=
  (seen.find? (fun e => decide (e.1 = key))).map (·.2)

/-- Embedding of `Limiter.Allow`: deny when the key was recorded at `last` with
`now - last < ttl`; otherwise record `now` for the key and allow. Denied calls
leave the map untouched (the Go code only assigns on the allow path). -/
def Limiter.Allow (l : Limiter) (key : String) (now : Nat) : Bool × Limiter :=
  match lookupKey l.seen key with
  | some last =>
    if now - last < l.ttl then (false, l)
    else (true, { l with seen := (key, now) :: l.seen })
  | none => (true, { l with seen := (key, now) :: l.seen })

/-- Embedding of `config.GmailNotifyAction`. -/
structure GmailNotifyAction where
  target : String
  channel : String
  template : String
  agentID : String
deriving DecidableEq, Repr

/-- Embedding of `config.GmailMatch` (the Go field `From` is `fromPats` here;
an empty list means the criterion is absent, as in the Go zero value). -/
structure GmailMatch where
  fromPats : List String
  labels : List String
deriving DecidableEq, Repr

/-- Embedding of `config.GmailAction`. -/
structure GmailAction where
  notify : Option GmailNotifyAction
deriving DecidableEq, Repr

/-- Embedding of `config.GmailRule` (the Go field `Match` is `gmatch` here). -/
structure GmailRule where
  name : String
  gmatch : GmailMatch
  action : GmailAction
deriving DecidableEq, Repr

/-- Embedding of `gmail.HistoryMessage` (the Go field `From` is `fromAddr`). -/
structure HistoryMessage where
  id : String
  threadID : String
  labels : List String
  subject : String
  fromAddr : String
  snippet : String
deriving DecidableEq, Repr

/-- One `From` pattern against the lowered sender, as in `Poller.matchRule`:
a pattern starting with a star matches when the sender ends with the
remainder, otherwise substring containment. -/
def fromPatternMatches (fromLower : List Char) (pat : String) : Bool :=
  let patL := lowerSeq pat.data
  match patL with
  | c :: rest => if c = '*' then endsWithSeq rest fromLower else containsSeq patL fromLower
  | [] => containsSeq [] fromLower

/-- Embedding of `Poller.matchRule`: all required labels must be present
(criterion skipped when the list is empty), and at least one `From` pattern
must match (criterion skipped when the list is empty). -/
def matchRule (gm : GmailMatch) (msg : HistoryMessage) : Bool :=
  (gm.labels.isEmpty || gm.labels.all (fun req => msg.labels.any (fun l => decide (l = req))))
  && (gm.fromPats.isEmpty || gm.fromPats.any (fromPatternMatches (lowerSeq msg.fromAddr.data)))

/-- Abstract model of Go text/template, an external library collaborator:
whether a template string parses, and the substitution result for a parsed
template on a field map (`none` models an execution error). -/
structure TemplateEngine where
  parses : String → Bool
  exec : String → List (String × String) → Option String

/-- Embedding of `TrelloHandler.renderMessage`: on a parse error or an
execution error the original template string is returned unchanged. -/
def renderMessage (eng : TemplateEngine) (tmpl : String) (data : List (String × String)) : String :=
  if eng.parses tmpl then
    match eng.exec tmpl data with
    | some s => s
    | none => tmpl
  else tmpl

/-- One call to the execution gateway
(`CreateOneShotJob` / `CreateOneShotJobForAgent` arguments). -/
structure DispatchCall where
  name : String
  message : String
  agentID : String
  timeout : Nat
  delay : Nat
deriving DecidableEq, Repr

/-- The hard-coded default Gmail notify template of `Poller.executeNotify`. -/
def defaultGmailTemplate : String := "📧 \x7b\x7b.From\x7d\x7d: \x7b\x7b.Subject\x7d\x7d"

/-- Template string effectively used by `Poller.executeNotify`. -/
def gmailTemplateOf (notify : GmailNotifyAction) : String :=
  if notify.template = "" then defaultGmailTemplate else notify.template

/-- Field map handed to the template by `Poller.executeNotify`. -/
def gmailData (msg : HistoryMessage) : List (String × String) :=
  [("From", msg.fromAddr), ("Subject", msg.subject), ("Snippet", msg.snippet), ("ID", msg.id)]

/-- Embedding of `Poller.executeNotify`: on a template parse error or
execution error the function logs and returns without calling the gateway
(`none`); otherwise it wraps the rendered message into a one-shot job for
agent `notify.agentID` with timeout 30 and delay 0. -/
def executeNotify (eng : TemplateEngine) (notify : GmailNotifyAction)
    (msg : HistoryMessage) : Option DispatchCall :=
  let tmplStr := gmailTemplateOf notify
  if eng.parses tmplStr then
    match eng.exec tmplStr (gmailData msg) with
    | some message =>
      some ⟨"gmail-notify",
        "Send this exact message to Telegram (target=" ++ notify.target ++ ", channel="
          ++ notify.channel ++ "). Just send it, no extra text:\n\n" ++ message,
        notify.agentID, 30, 0⟩
    | none => none
  else none

/-- Embedding of `Poller.evaluateRules`: the loop visits every rule; each rule
whose match criteria hold and whose action has a notify block runs
`executeNotify`. There is no break after a match. -/
def evaluateRules (eng : TemplateEngine) (rules : List GmailRule)
    (msg : HistoryMessage) : List DispatchCall :=
  rules.filterMap fun rule =>
    if matchRule rule.gmatch msg then
      match rule.action.notify with
      | some n => executeNotify eng n msg
      | none => none
    else none

/-- Embedding of `gmail.GmailState`, the persisted cursor blob. -/
structure GmailState where
  historyID : Nat
deriving DecidableEq, Repr

/-- Result of one `GetHistory` call: messages plus the new history id, or an
error carrying its message string (classified by `isNotFoundErr`). -/
inductive HistoryResult where
  | ok (msgs : List HistoryMessage) (newHID : Nat)
  | err (msg : String)
deriving DecidableEq, Repr

/-- Abstract model of what the Gmail client returns during one poll tick. -/
structure GmailClientModel where
  getCurrentHistoryID : Option Nat
  getHistory : Nat → HistoryResult

/-- Error classification of `Poller.poll`: an error whose text contains
"404" or "notFound" is the permanent position-too-old condition. -/
def isNotFoundErr (e : String) : Bool :=
  containsSeq ("404").data e.data || containsSeq ("notFound").data e.data

/-- Observable effects of one poll tick, in program order: fetches to the
client, cursor persistence, and gateway dispatches. -/
inductive PollEvent where
  | fetchHistory (pos : Nat)
  | fetchCurrent
  | save (hid : Nat)
  | dispatch (c : DispatchCall)
deriving DecidableEq, Repr

/-- Dispatch events produced by the message loop of `Poller.poll`, in the
order the messages were received. -/
def dispatchEvents (eng : TemplateEngine) (rules : List GmailRule)
    (msgs : List HistoryMessage) : List PollEvent :=
  (msgs.map fun m => (evaluateRules eng rules m).map PollEvent.dispatch).flatten

/-- Initialisation branch of `Poller.poll` (missing state file or a zero
history id): fetch the current high-water id and persist it; on failure leave
the persisted state untouched and return. -/
def pollInit (c : GmailClientModel) (st : Option GmailState) :
    Option GmailState × List PollEvent :=
  match c.getCurrentHistoryID with
  | none => (st, [PollEvent.fetchCurrent])
  | some hid => (some ⟨hid⟩, [PollEvent.fetchCurrent, PollEvent.save hid])

/-- Embedding of `Poller.poll`. Input is the persisted state as read back from
disk (`none` models a failed `loadState`), output is the persisted state after
the tick plus the ordered effect trace. On a fetch error classified as
not-found the cursor is reset to a freshly fetched high-water id; any other
error leaves state untouched; on success the new id is persisted (only when it
advanced) before the messages are evaluated. -/
def poll (c : GmailClientModel) (eng : TemplateEngine) (rules : List GmailRule)
    (st : Option GmailState) : Option GmailState × List PollEvent :=
  match st with
  | none => pollInit c st
  | some s =>
    if s.historyID = 0 then pollInit c st
    else
      match c.getHistory s.historyID with
      | HistoryResult.err e =>
        if isNotFoundErr e then
          match c.getCurrentHistoryID with
          | some hid =>
            (some ⟨hid⟩,
             [PollEvent.fetchHistory s.historyID, PollEvent.fetchCurrent, PollEvent.save hid])
          | none => (some s, [PollEvent.fetchHistory s.historyID, PollEvent.fetchCurrent])
        else (some s, [PollEvent.fetchHistory s.historyID])
      | HistoryResult.ok msgs newHID =>
        let st2 : GmailState := if s.historyID < newHID then ⟨newHID⟩ else s
        let saveEvts : List PollEvent :=
          if s.historyID < newHID then [PollEvent.save newHID] else []
        (some st2,
         PollEvent.fetchHistory s.historyID :: saveEvts ++ dispatchEvents eng rules msgs)

/-- Whether a poll event is a gateway dispatch. -/
def isDispatchEvt : PollEvent → Bool
  | PollEvent.dispatch _ => true
  | _ => false

/-- Number of gateway dispatches in a poll trace. -/
def countDispatch (evts : List PollEvent) : Nat :=
  (evts.filter isDispatchEvt).length

/-- Embedding of `config.TrelloConfig`; `lists` holds the (name, id) pairs of
the Go `lists` map. -/
structure TrelloConfig where
  secret : String
  lists : List (String × String)
  rules : List TrelloRule
deriving DecidableEq, Repr

/-- Embedding of `Config.ListIDToName`: the name bound to a list id, or the
empty string when the id is not watched. -/
def listIDToName (cfg : TrelloConfig) (id : String) : String :=
  match cfg.lists.find? (fun p => decide (p.2 = id)) with
  | some p => p.1
  | none => ""

/-- HTTP methods distinguished by the handlers. -/
inductive HMethod where
  | head
  | post
  | other
deriving DecidableEq, Repr

/-- Result of `json.Unmarshal` on the Trello body: the fields the handler
reads, or `none` on a parse error. -/
structure TrelloPayload where
  actionType : String
  cardID : String
  cardName : String
  listAfterID : String
  listAfterName : String
  listBeforeName : String
deriving DecidableEq, Repr

/-- One inbound Trello webhook request, with the external collaborators
(body read, HMAC comparison, JSON parse) resolved to their outcomes. -/
structure TrelloRequest where
  method : HMethod
  bodyReadOk : Bool
  sigValid : Bool
  payload : Option TrelloPayload
deriving DecidableEq, Repr

/-- Embedding of `VerifyTrelloSignature` as the boolean gate the spec
prescribes: an empty secret always passes, otherwise the abstract HMAC
comparison result decides. -/
def verifyTrelloSignature (secret : String) (sigValid : Bool) : Bool :=
  if secret = "" then true else sigValid

/-- Exit points of `TrelloHandler.ServeHTTP`, in source order. -/
inductive TrelloOutcome where
  | headOk
  | methodNotAllowed
  | badRequest
  | forbidden
  | okParseFail
  | okNoListChange
  | okUnwatchedList
  | okQuestionsColumn
  | okNoCardID
  | okIgnoredAction
  | okRateLimited
  | okNoRule
  | okDispatched (call : DispatchCall)
deriving DecidableEq, Repr

/-- HTTP status written by each Trello handler exit. -/
def trelloStatus : TrelloOutcome → Nat
  | TrelloOutcome.methodNotAllowed => 405
  | TrelloOutcome.badRequest => 400
  | TrelloOutcome.forbidden => 403
  | _ => 200

/-- Gateway calls made on each Trello handler exit. -/
def trelloDispatches : TrelloOutcome → List DispatchCall
  | TrelloOutcome.okDispatched c => [c]
  | _ => []

/-- Dedup key built by `TrelloHandler.ServeHTTP`. -/
def trelloKey (p : TrelloPayload) : String :=
  "trello:" ++ p.cardID ++ ":" ++ p.actionType

/-- Template data map built by `TrelloHandler.ServeHTTP`. -/
def trelloData (p : TrelloPayload) : List (String × String) :=
  [("CardID", p.cardID), ("CardName", p.cardName), ("ListAfterID", p.listAfterID),
   ("ListAfterName", p.listAfterName), ("ListBeforeName", p.listBeforeName),
   ("ListName", p.listAfterName)]

/-- Tail of `TrelloHandler.ServeHTTP` after normalization settled on an event
type: rate limit, rule lookup, render, dispatch (gateway errors are logged and
do not change the response). -/
def trelloProcess (cfg : TrelloConfig) (eng : TemplateEngine) (lim : Limiter)
    (now : Nat) (p : TrelloPayload) (eventType : String) : TrelloOutcome × Limiter :=
  let res := lim.Allow (trelloKey p) now
  if res.1 = false then (TrelloOutcome.okRateLimited, res.2)
  else
    let listName := listIDToName cfg p.listAfterID
    match findRule cfg.rules eventType listName with
    | none => (TrelloOutcome.okNoRule, res.2)
    | some rule =>
      let msg := renderMessage eng rule.action.messageTemplate (trelloData p)
      let timeout := if rule.action.timeout = 0 then 120 else rule.action.timeout
      let delay := if rule.action.delay = 0 then 2 else rule.action.delay
      (TrelloOutcome.okDispatched
        ⟨eventType ++ ": " ++ p.cardName, msg, rule.action.agentID, timeout, delay⟩, res.2)

/-- Embedding of `TrelloHandler.ServeHTTP`. -/
def trelloServeHTTP (cfg : TrelloConfig) (eng : TemplateEngine) (lim : Limiter)
    (now : Nat) (req : TrelloRequest) : TrelloOutcome × Limiter :=
  match req.method with
  | HMethod.head => (TrelloOutcome.headOk, lim)
  | HMethod.other => (TrelloOutcome.methodNotAllowed, lim)
  | HMethod.post =>
    if req.bodyReadOk = false then (TrelloOutcome.badRequest, lim)
    else if cfg.secret ≠ "" ∧ verifyTrelloSignature cfg.secret req.sigValid = false then
      (TrelloOutcome.forbidden, lim)
    else
      match req.payload with
      | none => (TrelloOutcome.okParseFail, lim)
      | some p =>
        if p.actionType = "updateCard" then
          if p.listAfterID = "" then (TrelloOutcome.okNoListChange, lim)
          else if listIDToName cfg p.listAfterID = "" then (TrelloOutcome.okUnwatchedList, lim)
          else if listIDToName cfg p.listAfterID = "questions" then
            (TrelloOutcome.okQuestionsColumn, lim)
          else trelloProcess cfg eng lim now p "card_moved"
        else if p.actionType = "commentCard" then
          if p.cardID = "" then (TrelloOutcome.okNoCardID, lim)
          else trelloProcess cfg eng lim now p "comment_added"
        else (TrelloOutcome.okIgnoredAction, lim)

/-- Embedding of `config.GitHubConfig`. -/
structure GitHubConfig where
  secret : String
  notifyMode : String
deriving DecidableEq, Repr

/-- Fields of the GitHub payload the handler reads. A JSON parse error is
ignored by the source (`json.Unmarshal` result discarded), leaving the zero
value, so the payload is always present. -/
structure GitHubPayload where
  action : String
  repoFullName : String
  prNumber : Nat
  checkRunConclusion : String
  checkRunPRs : List Nat
  workflowRunConclusion : String
  workflowRunPRs : List Nat
deriving DecidableEq, Repr

/-- One inbound GitHub webhook request. -/
structure GitHubRequest where
  method : HMethod
  bodyReadOk : Bool
  sigValid : Bool
  ghEvent : String
  payload : GitHubPayload
deriving DecidableEq, Repr

/-- Embedding of `VerifyGitHubSignature` as a boolean gate: empty secret
always passes, otherwise the abstract HMAC comparison result decides. -/
def verifyGitHubSignature (secret : String) (sigValid : Bool) : Bool :=
  if secret = "" then true else sigValid

/-- The event allow-list of `GitHubHandler.ServeHTTP`. -/
def relevantGitHubEvent (e : String) : Bool :=
  decide (e = "check_run") || decide (e = "workflow_run") || decide (e = "pull_request_review")

/-- Terminal-action check of the `switch ghEvent` block: check and workflow
runs must be "completed", reviews must be "submitted". -/
def githubTerminalOk (ghEvent action : String) : Bool :=
  if ghEvent = "check_run" then decide (action = "completed")
  else if ghEvent = "workflow_run" then decide (action = "completed")
  else if ghEvent = "pull_request_review" then decide (action = "submitted")
  else true

/-- PR number resolution of `GitHubHandler.ServeHTTP`: payload PR number,
falling back to the first PR of the check run, then of the workflow run. -/
def githubResolvePR (p : GitHubPayload) : Nat :=
  let pr1 := p.prNumber
  let pr2 := if pr1 = 0 ∧ p.checkRunPRs ≠ [] then p.checkRunPRs.headD 0 else pr1
  if pr2 = 0 ∧ p.workflowRunPRs ≠ [] then p.workflowRunPRs.headD 0 else pr2

/-- Exit points of `GitHubHandler.ServeHTTP`. `okSkippedSuccess` is produced
only by the notify-mode aware variant below. -/
inductive GitHubOutcome where
  | methodNotAllowed
  | badRequest
  | forbidden
  | okIgnoredEvent
  | okNotTerminal
  | okSkippedSuccess
  | okRateLimited
  | okDispatched (call : DispatchCall)
deriving DecidableEq, Repr

/-- HTTP status written by each GitHub handler exit. -/
def githubStatus : GitHubOutcome → Nat
  | GitHubOutcome.methodNotAllowed => 405
  | GitHubOutcome.badRequest => 400
  | GitHubOutcome.forbidden => 403
  | _ => 200

/-- Gateway calls made on each GitHub handler exit. -/
def githubDispatches : GitHubOutcome → List DispatchCall
  | GitHubOutcome.okDispatched c => [c]
  | _ => []

/-- The fixed instruction message `GitHubHandler.ServeHTTP` sends to the
gateway (its format string filled with the event fields). -/
def githubJobMessage (ghEvent action repoFullName : String) (pr : Nat) : String :=
  "[Webhook Event] GitHub event detected.\n\nSource: github\nEvent: " ++ ghEvent
    ++ "\nAction: " ++ action ++ "\nRepository: " ++ repoFullName ++ "\nPR: #"
    ++ toString pr
    ++ "\n\nRead skills/trello-tasks/SKILL.md.\nLoad board config from memory/trello-config.json.\nCheck if any card with label \x27AI Review\x27 (or in In Progress) has a PR matching this event.\nIf CI completed (success/failure) — check state.json for the card, act accordingly.\nIf PR review submitted — process review comments.\nTelegram notifications: target=46075872, channel=telegram.\nIf nothing actionable, exit silently."

/-- Gateway call made by `GitHubHandler.ServeHTTP` (default agent, timeout
120, delay 2). -/
def githubDispatchCall (req : GitHubRequest) (pr : Nat) : DispatchCall :=
  ⟨"github " ++ req.ghEvent ++ "/" ++ req.payload.action ++ " PR#" ++ toString pr,
   githubJobMessage req.ghEvent req.payload.action req.payload.repoFullName pr,
   "", 120, 2⟩

/-- Embedding of `GitHubHandler.ServeHTTP` as in src/unnamed/part_005 (the
snapshot without the notify-mode gate). -/
def githubServeHTTP (cfg : GitHubConfig) (lim : Limiter) (now : Nat)
    (req : GitHubRequest) : GitHubOutcome × Limiter :=
  match req.method with
  | HMethod.post =>
    if req.bodyReadOk = false then (GitHubOutcome.badRequest, lim)
    else if cfg.secret ≠ "" ∧ verifyGitHubSignature cfg.secret req.sigValid = false then
      (GitHubOutcome.forbidden, lim)
    else if relevantGitHubEvent req.ghEvent = false then (GitHubOutcome.okIgnoredEvent, lim)
    else if githubTerminalOk req.ghEvent req.payload.action = false then
      (GitHubOutcome.okNotTerminal, lim)
    else
      let pr := githubResolvePR req.payload
      let res := lim.Allow ("github:" ++ req.ghEvent ++ ":" ++ toString pr) now
      if res.1 = false then (GitHubOutcome.okRateLimited, res.2)
      else (GitHubOutcome.okDispatched (githubDispatchCall req pr), res.2)
  | _ => (GitHubOutcome.methodNotAllowed, lim)

/-- CI conclusion of the event, taken from the section of the payload that
matches the event kind. -/
def githubConclusionOf (req : GitHubRequest) : String :=
  if req.ghEvent = "check_run" then req.payload.checkRunConclusion
  else if req.ghEvent = "workflow_run" then req.payload.workflowRunConclusion
  else ""

/-- Modelled from the spec: the GitHub handler version that consults the
operator-selected `notify_mode`. The handler wired to `NotifyMode` is missing
from src/ — src/unnamed/part_005 is a stale snapshot that predates the field
(it neither reads `NotifyMode` nor compiles against the tests in
src/unnamed/part_006, whose mock gateway requires an interface-typed field),
while the config declaration (`notify_mode: all | failures`) and the tests
demanding zero dispatches for a successful conclusion in failures mode are in
src/. Per the spec, when the failures-only mode is active a successful CI
conclusion is also treated as Ignore; everything else is as in
`githubServeHTTP`. -/
def githubServeHTTPCurrent (cfg : GitHubConfig) (lim : Limiter) (now : Nat)
    (req : GitHubRequest) : GitHubOutcome × Limiter :=
  match req.method with
  | HMethod.post =>
    if req.bodyReadOk = false then (GitHubOutcome.badRequest, lim)
    else if cfg.secret ≠ "" ∧ verifyGitHubSignature cfg.secret req.sigValid = false then
      (GitHubOutcome.forbidden, lim)
    else if relevantGitHubEvent req.ghEvent = false then (GitHubOutcome.okIgnoredEvent, lim)
    else if githubTerminalOk req.ghEvent req.payload.action = false then
      (GitHubOutcome.okNotTerminal, lim)
    else if cfg.notifyMode = "failures"
        ∧ (req.ghEvent = "check_run" ∨ req.ghEvent = "workflow_run")
        ∧ githubConclusionOf req = "success" then
      (GitHubOutcome.okSkippedSuccess, lim)
    else
      let pr := githubResolvePR req.payload
      let res := lim.Allow ("github:" ++ req.ghEvent ++ ":" ++ toString pr) now
      if res.1 = false then (GitHubOutcome.okRateLimited, res.2)
      else (GitHubOutcome.okDispatched (githubDispatchCall req pr), res.2)
  | _ => (GitHubOutcome.methodNotAllowed, lim)

/-! ## Concrete fixtures used by witnesses and counterexamples -/

/-- Template-engine instance whose substitution is the identity (every
template parses, executes to itself). -/
def engOK : TemplateEngine := ⟨fun _ => true, fun t _ => some t⟩

/-- Template-engine instance on which every template fails to parse, the
situation the tests create with the unparseable template. -/
def badEngine : TemplateEngine := ⟨fun _ => false, fun _ _ => none⟩

/-- A Gmail rule with an empty match block (matches every message) and a
notify action. -/
def cexRuleA : GmailRule := ⟨"rule-a", ⟨[], []⟩, ⟨some ⟨"123", "telegram", "T1", ""⟩⟩⟩

/-- A second everything-matching Gmail rule with a notify action. -/
def cexRuleB : GmailRule := ⟨"rule-b", ⟨[], []⟩, ⟨some ⟨"123", "telegram", "T2", ""⟩⟩⟩

/-- A concrete history message. -/
def cexMsg : HistoryMessage := ⟨"m1", "t1", ["INBOX"], "Test", "a@b.com", "snippet"⟩

example : matchCondition "" "anything" = true := by decide
example : matchCondition "list == \x27ready\x27" "ready" = true := by decide
example : matchCondition "list == \x27ready\x27" "dev" = false := by decide
example :
    matchCondition "list == \x27in_progress\x27 || list == \x27dev\x27 || list == \x27prod\x27"
      "dev" = true := by decide
example :
    matchCondition "list == \x27in_progress\x27 || list == \x27dev\x27 || list == \x27prod\x27"
      "ready" = false := by decide
example : matchCondition "list ==   \x27dev\x27" "dev" = true := by decide
example : matchCondition "list  == \x27dev\x27" "dev" = false := by decide
example : matchCondition "list == \x27dev" "dev" = false := by decide

/-! ## Helper lemmas -/

/-- Looking up a key other than the freshly inserted one sees the old map. -/
theorem lookupKey_cons_ne (seen : List (String × Nat)) (key k2 : String) (now : Nat)
    (h : k2 ≠ key) : lookupKey ((key, now) :: seen) k2 = lookupKey seen k2 := by
  simp only [lookupKey, List.find?]
  have : decide (((key, now) : String × Nat).1 = k2) = false := by
    simp [Ne.symm h]
  rw [this]

/-- Looking up the freshly inserted key sees the new timestamp. -/
theorem lookupKey_cons_self (seen : List (String × Nat)) (key : String) (now : Nat) :
    lookupKey ((key, now) :: seen) key = some now := by
  simp [lookupKey, List.find?]

/-- The decision of `Limiter.Allow` only depends on the ttl and on the entry
recorded for the key. -/
theorem allow_fst_congr (l1 l2 : Limiter) (key : String) (now : Nat)
    (httl : l1.ttl = l2.ttl) (hseen : lookupKey l1.seen key = lookupKey l2.seen key) :
    (l1.Allow key now).1 = (l2.Allow key now).1 := by
  unfold Limiter.Allow
  rw [hseen, httl]
  cases lookupKey l2.seen key with
  | none => rfl
  | some last => by_cases h : now - last < l2.ttl <;> simp [h]

/-- A successful `find?` returns the first satisfying element: the list splits
into a prefix of failing elements, the hit, and a tail. -/
theorem find?_first_split {α : Type} (p : α → Bool) :
    ∀ (l : List α) (r : α), l.find? p = some r →
      p r = true ∧ ∃ l1 l2, l = l1 ++ r :: l2 ∧ ∀ x ∈ l1, p x = false
  | [], r, h => by simp [List.find?] at h
  | a :: l, r, h => by
    by_cases ha : p a
    · rw [List.find?_cons_of_pos _ ha] at h
      cases h
      exact ⟨ha, [], l, rfl, by simp⟩
    · rw [List.find?_cons_of_neg _ ha] at h
      obtain ⟨hr, l1, l2, hsplit, hfail⟩ := find?_first_split p l r h
      refine ⟨hr, a :: l1, l2, by simp [hsplit], ?_⟩
      intro x hx
      rcases List.mem_cons.mp hx with hx | hx
      · subst hx; exact Bool.eq_false_iff.mpr ha
      · exact hfail x hx

/-- A failing `find?` means no element satisfies the predicate. -/
theorem find?_none {α : Type} (p : α → Bool) :
    ∀ (l : List α), l.find? p = none → ∀ x ∈ l, p x = false
  | [], _, x, hx => by simp at hx
  | a :: l, h, x, hx => by
    by_cases ha : p a
    · rw [List.find?_cons_of_pos _ ha] at h; cases h
    · rw [List.find?_cons_of_neg _ ha] at h
      rcases List.mem_cons.mp hx with hx | hx
      · subst hx; exact Bool.eq_false_iff.mpr ha
      · exact find?_none p l h x hx

/-! ## Claims -/

/-- C3: Deduplicator contract of `Limiter.Allow`: a never-seen key is allowed;
an allowed call records its timestamp for the key; a call made while less than
ttl has elapsed since the recorded (last allowed) call is denied and leaves
the map untouched; a call made after more than ttl has elapsed is allowed;
and calls on distinct keys are independent (the recorded entry of any other
key, and hence the outcome of an `Allow` on it, is unchanged). -/
theorem dedup_allow_contract (l : Limiter) (key : String) (now : Nat) :
    (lookupKey l.seen key = none → (l.Allow key now).1 = true) ∧
    ((l.Allow key now).1 = true → lookupKey ((l.Allow key now).2).seen key = some now) ∧
    (∀ last, lookupKey l.seen key = some last → now - last < l.ttl →
      (l.Allow key now).1 = false ∧ (l.Allow key now).2 = l) ∧
    (∀ last, lookupKey l.seen key = some last → l.ttl < now - last →
      (l.Allow key now).1 = true) ∧
    (∀ k2, k2 ≠ key → lookupKey ((l.Allow key now).2).seen k2 = lookupKey l.seen k2) ∧
    (∀ k2 now2, k2 ≠ key →
      (((l.Allow key now).2).Allow k2 now2).1 = (l.Allow k2 now2).1) := by
  have hstate : ((l.Allow key now).2).ttl = l.ttl ∧
      (((l.Allow key now).2).seen = l.seen ∨
        ((l.Allow key now).2).seen = (key, now) :: l.seen) := by
    unfold Limiter.Allow
    cases h : lookupKey l.seen key with
    | none => exact ⟨rfl, Or.inr rfl⟩
    | some last =>
      by_cases hlt : now - last < l.ttl
      · simp [hlt]
      · simp [hlt]
  refine ⟨?_, ?_, ?_, ?_, ?_, ?_⟩
  · intro h
    unfold Limiter.Allow
    rw [h]
  · intro h
    unfold Limiter.Allow at h ⊢
    cases hl : lookupKey l.seen key with
    | none => exact lookupKey_cons_self l.seen key now
    | some last =>
      rw [hl] at h
      by_cases hlt : now - last < l.ttl
      · simp [hlt] at h
      · simp only [hlt, if_false]
        exact lookupKey_cons_self l.seen key now
  · intro last hl hlt
    unfold Limiter.Allow
    rw [hl]
    simp [hlt]
  · intro last hl hgt
    unfold Limiter.Allow
    rw [hl]
    have : ¬(now - last < l.ttl) := by omega
    simp [this]
  · intro k2 hne
    rcases hstate.2 with h | h
    · rw [h]
    · rw [h]
      exact lookupKey_cons_ne l.seen key k2 now hne
  · intro k2 now2 hne
    refine allow_fst_congr _ _ _ _ hstate.1 ?_
    rcases hstate.2 with h | h
    · rw [h]
    · rw [h]
      exact lookupKey_cons_ne l.seen key k2 now hne

/-- Witness for C3: on a fresh limiter (ttl 300) the first call for "k" is
allowed; with "k" recorded at 10, a call at 20 is denied and changes nothing,
while a call at 320 is allowed; recording "k" leaves the entry for "j"
unchanged. -/
theorem dedup_allow_contract_witness :
    ((Limiter.mk 300 []).Allow "k" 10).1 = true ∧
    (((Limiter.mk 300 [("k", 10)]).Allow "k" 20).1 = false ∧
      ((Limiter.mk 300 [("k", 10)]).Allow "k" 20).2 = Limiter.mk 300 [("k", 10)]) ∧
    ((Limiter.mk 300 [("k", 10)]).Allow "k" 320).1 = true ∧
    lookupKey (((Limiter.mk 300 [("j", 7)]).Allow "k" 10).2).seen "j" = some 7 :=
  ⟨(dedup_allow_contract ⟨300, []⟩ "k" 10).1 rfl,
   (dedup_allow_contract ⟨300, [("k", 10)]⟩ "k" 20).2.2.1 10 rfl (by decide),
   (dedup_allow_contract ⟨300, [("k", 10)]⟩ "k" 320).2.2.2.1 10 rfl (by decide),
   by
     rw [(dedup_allow_contract ⟨300, [("j", 7)]⟩ "k" 10).2.2.2.2.1 "j" (by decide)]
     rfl⟩

/-- C5 counterexample: the condition evaluator does not tolerate arbitrary
whitespace around the equality operator — inserting one extra space between
the fact name and the operator flips the result for the same condition. -/
theorem condition_whitespace_cex :
    matchCondition "list == \x27ready\x27" "ready" = true ∧
    matchCondition "list  == \x27ready\x27" "ready" = false := by
  exact ⟨by decide, by decide⟩

/-- C5 amended: an empty condition matches every fact value; a non-empty
condition is split on the OR delimiter and matches iff any clause equates the
list fact with a single-quoted literal equal to the fact value; malformed
clauses (missing quotes, unknown syntax) are non-matching rather than errors;
whitespace is tolerated around the OR delimiter, at clause edges and between
the operator and the literal, but exactly one space is required between the
fact name and the operator (extra or missing space there makes the clause
non-matching). -/
theorem condition_eval_amended :
    (∀ listName, matchCondition "" listName = true) ∧
    (matchCondition "list == \x27dev\x27 || list == \x27prod\x27" "dev" = true ∧
     matchCondition "list == \x27dev\x27 || list == \x27prod\x27" "prod" = true ∧
     matchCondition "list == \x27dev\x27 || list == \x27prod\x27" "qa" = false) ∧
    (matchCondition "list == \x27dev\x27   ||   list == \x27prod\x27" "prod" = true ∧
     matchCondition "  list ==   \x27dev\x27  " "dev" = true) ∧
    (matchCondition "list == dev" "dev" = false ∧
     matchCondition "garbage" "garbage" = false ∧
     matchCondition "list == \x27dev" "dev" = false) ∧
    (matchCondition "list  == \x27dev\x27" "dev" = false ∧
     matchCondition "list== \x27dev\x27" "dev" = false) := by
  refine ⟨fun listName => rfl, ⟨?_, ?_, ?_⟩, ⟨?_, ?_⟩, ⟨?_, ?_, ?_⟩, ?_, ?_⟩ <;> decide

/-- C2 counterexample: on the pull (Gmail) path rule evaluation is not
first-match-wins — with two rules that both match one message, both rules act
and two gateway dispatches are produced for the single event. -/
theorem gmail_rules_not_first_match_cex :
    (evaluateRules engOK [cexRuleA, cexRuleB] cexMsg).length = 2 := by decide

/-- C2 amended: the push-path `findRule` is first-match-wins (it returns the
first rule, in declared order, whose event kind and condition both match, and
every rule before it fails the combined test; when it returns none no rule
matches), while the pull-path `evaluateRules` evaluates every rule
independently of the others: it distributes over list append, and every
matching rule with a dispatching notify action contributes its dispatch even
when an earlier rule also matched. -/
theorem rule_matching_amended :
    (∀ (rules : List TrelloRule) (eventType listName : String) (r : TrelloRule),
        findRule rules eventType listName = some r →
        ruleMatches eventType listName r = true ∧
        ∃ l1 l2, rules = l1 ++ r :: l2 ∧
          ∀ x ∈ l1, ruleMatches eventType listName x = false) ∧
    (∀ (rules : List TrelloRule) (eventType listName : String),
        findRule rules eventType listName = none →
        ∀ r ∈ rules, ruleMatches eventType listName r = false) ∧
    (∀ (eng : TemplateEngine) (rules1 rules2 : List GmailRule) (msg : HistoryMessage),
        evaluateRules eng (rules1 ++ rules2) msg
          = evaluateRules eng rules1 msg ++ evaluateRules eng rules2 msg) ∧
    (∀ (eng : TemplateEngine) (l1 l2 : List GmailRule) (rule : GmailRule)
        (msg : HistoryMessage) (n : GmailNotifyAction) (call : DispatchCall),
        rule.action.notify = some n → matchRule rule.gmatch msg = true →
        executeNotify eng n msg = some call →
        call ∈ evaluateRules eng (l1 ++ rule :: l2) msg) := by
  refine ⟨?_, ?_, ?_, ?_⟩
  · intro rules eventType listName r h
    exact find?_first_split _ rules r h
  · intro rules eventType listName h
    exact find?_none _ rules h
  · intro eng rules1 rules2 msg
    simp [evaluateRules]
  · intro eng l1 l2 rule msg n call hn hmatch hcall
    simp only [evaluateRules, List.filterMap_append, List.filterMap_cons, hmatch, if_true, hn,
      hcall]
    exact List.mem_append_right _ (List.mem_cons_self _ _)

/-- A Trello rule whose condition fails on list "dev". -/
def wTrelloRule1 : TrelloRule :=
  ⟨"card_moved", "list == \x27ready\x27", ⟨"one_shot", 120, 2, "", "tmpl1"⟩⟩

/-- A Trello rule with an empty (always matching) condition. -/
def wTrelloRule2 : TrelloRule :=
  ⟨"card_moved", "", ⟨"one_shot", 60, 1, "", "tmpl2"⟩⟩

/-- Witness for C2: on rules `[R1(cond fails on dev), R2(empty cond)]` and
list "dev", `findRule` returns R2, R1 having failed; and a matching Gmail rule
placed after another matching rule still contributes its dispatch. -/
theorem rule_matching_amended_witness :
    (ruleMatches "card_moved" "dev" wTrelloRule2 = true ∧
      ∃ l1 l2, [wTrelloRule1, wTrelloRule2] = l1 ++ wTrelloRule2 :: l2 ∧
        ∀ x ∈ l1, ruleMatches "card_moved" "dev" x = false) ∧
    ("Send this exact message to Telegram (target=123, channel=telegram). Just send it, no extra text:\n\nT2" :
        String) ∈
      (evaluateRules engOK [cexRuleA, cexRuleB] cexMsg).map DispatchCall.message :=
  ⟨rule_matching_amended.1 [wTrelloRule1, wTrelloRule2] "card_moved" "dev" wTrelloRule2
      (by decide),
   List.mem_map_of_mem DispatchCall.message
     (rule_matching_amended.2.2.2 engOK [cexRuleA] [] cexRuleB cexMsg _ _ rfl (by decide) rfl)⟩

/-- C6 counterexample: on the pull (Gmail) notify path a template that fails
to parse does not fall back to the raw template string — the notification is
dropped entirely (no gateway call), so a broken template does prevent an
otherwise-valid event from producing a notification there. -/
theorem gmail_template_no_fallback_cex :
    executeNotify badEngine ⟨"123", "telegram", "\x7b\x7b.Invalid", ""⟩ cexMsg = none := rfl

/-- C6 amended: on the push path the renderer returns the original template
string whenever the template fails to parse or substitution fails; on the
pull (Gmail) notify path such a failure instead skips the notification — no
gateway dispatch is made for that rule. -/
theorem template_fallback_amended :
    (∀ (eng : TemplateEngine) (tmpl : String) (data : List (String × String)),
        eng.parses tmpl = false ∨ eng.exec tmpl data = none →
        renderMessage eng tmpl data = tmpl) ∧
    (∀ (eng : TemplateEngine) (notify : GmailNotifyAction) (msg : HistoryMessage),
        eng.parses (gmailTemplateOf notify) = false
          ∨ eng.exec (gmailTemplateOf notify) (gmailData msg) = none →
        executeNotify eng notify msg = none) := by
  constructor
  · intro eng tmpl data h
    unfold renderMessage
    rcases h with h | h
    · simp [h]
    · by_cases hp : eng.parses tmpl
      · simp [hp, h]
      · simp [hp]
  · intro eng notify msg h
    unfold executeNotify
    rcases h with h | h
    · simp [h]
    · by_cases hp : eng.parses (gmailTemplateOf notify)
      · simp [hp, h]
      · simp [hp]

/-- Witness for C6: on the non-parsing engine the push-path renderer returns
the unparseable template unchanged, and the Gmail notify path makes no
gateway call. -/
theorem template_fallback_amended_witness :
    renderMessage badEngine "\x7b\x7b.Invalid" [("CardName", "Test")] = "\x7b\x7b.Invalid" ∧
    executeNotify badEngine ⟨"123", "telegram", "T", ""⟩ cexMsg = none :=
  ⟨template_fallback_amended.1 badEngine "\x7b\x7b.Invalid" [("CardName", "Test")] (Or.inl rfl),
   template_fallback_amended.2 badEngine ⟨"123", "telegram", "T", ""⟩ cexMsg (Or.inl rfl)⟩

/-! ## Poller lemmas and claims -/

theorem isDispatchEvt_fetchHistory (p : Nat) : isDispatchEvt (PollEvent.fetchHistory p) = false :=
  rfl

theorem isDispatchEvt_save (h : Nat) : isDispatchEvt (PollEvent.save h) = false := rfl

theorem countDispatch_append (a b : List PollEvent) :
    countDispatch (a ++ b) = countDispatch a + countDispatch b := by
  simp [countDispatch, List.filter_append]

theorem countDispatch_cons_nondispatch (e : PollEvent) (l : List PollEvent)
    (h : isDispatchEvt e = false) : countDispatch (e :: l) = countDispatch l := by
  simp [countDispatch, List.filter_cons, h]

theorem countDispatch_map_dispatch (l : List DispatchCall) :
    countDispatch (l.map PollEvent.dispatch) = l.length := by
  induction l with
  | nil => rfl
  | cons c  rest ih => simp [countDispatch, List.filter_cons, isDispatchEvt] at ih ⊢; exact ih

theorem countDispatch_dispatchEvents (eng : TemplateEngine) (rules : List GmailRule) :
    ∀ msgs : List HistoryMessage,
      countDispatch (dispatchEvents eng rules msgs)
        = (msgs.map fun m => (evaluateRules eng rules m).length).sum
  | [] => rfl
  | m :: rest => by
    have ih := countDispatch_dispatchEvents eng rules rest
    simp only [dispatchEvents, List.map_cons, List.flatten_cons, List.map, List.sum_cons]
    rw [countDispatch_append, countDispatch_map_dispatch]
    simp only [dispatchEvents] at ih
    rw [ih]

/-- Unfolding of the tracking branch of `poll` on a successful fetch. -/
theorem poll_ok (c : GmailClientModel) (eng : TemplateEngine) (rules : List GmailRule)
    (pos : Nat) (msgs : List HistoryMessage) (newHID : Nat) (hpos : 0 < pos)
    (hist : c.getHistory pos = HistoryResult.ok msgs newHID) :
    poll c eng rules (some ⟨pos⟩)
      = (some (if pos < newHID then ⟨newHID⟩ else ⟨pos⟩),
         (PollEvent.fetchHistory pos ::
           (if pos < newHID then [PollEvent.save newHID] else []))
           ++ dispatchEvents eng rules msgs) := by
  have hne : ¬ pos = 0 := by omega
  unfold poll
  dsimp only
  rw [if_neg hne, hist]

/-- Unfolding of the tracking branch of `poll` on a fetch error. -/
theorem poll_err (c : GmailClientModel) (eng : TemplateEngine) (rules : List GmailRule)
    (pos : Nat) (e : String) (hpos : 0 < pos)
    (hist : c.getHistory pos = HistoryResult.err e) :
    poll c eng rules (some ⟨pos⟩)
      = if isNotFoundErr e then
          match c.getCurrentHistoryID with
          | some hid =>
            (some ⟨hid⟩,
             [PollEvent.fetchHistory pos, PollEvent.fetchCurrent, PollEvent.save hid])
          | none => (some ⟨pos⟩, [PollEvent.fetchHistory pos, PollEvent.fetchCurrent])
        else (some ⟨pos⟩, [PollEvent.fetchHistory pos]) := by
  have hne : ¬ pos = 0 := by omega
  unfold poll
  dsimp only
  rw [if_neg hne, hist]

/-- C1: starting a tick in Tracking(`pos`) (a positive persisted history id),
a successful fetch persists a value at least `pos`; a fetch error that is not
the not-found condition leaves the persisted cursor at `pos`; the not-found
condition replaces the cursor by a freshly fetched high-water id (or leaves it
unchanged when even that fetch fails) and dispatches nothing, skipping the
missed window without replay. -/
theorem cursor_monotonic (c : GmailClientModel) (eng : TemplateEngine)
    (rules : List GmailRule) (pos : Nat) (hpos : 0 < pos) :
    (∀ msgs newHID, c.getHistory pos = HistoryResult.ok msgs newHID →
      ∃ p2, (poll c eng rules (some ⟨pos⟩)).1 = some ⟨p2⟩ ∧ pos ≤ p2) ∧
    (∀ e, c.getHistory pos = HistoryResult.err e → isNotFoundErr e = false →
      (poll c eng rules (some ⟨pos⟩)).1 = some ⟨pos⟩) ∧
    (∀ e, c.getHistory pos = HistoryResult.err e → isNotFoundErr e = true →
      ((c.getCurrentHistoryID = none ∧ (poll c eng rules (some ⟨pos⟩)).1 = some ⟨pos⟩) ∨
        (∃ hid, c.getCurrentHistoryID = some hid ∧
          (poll c eng rules (some ⟨pos⟩)).1 = some ⟨hid⟩)) ∧
      countDispatch (poll c eng rules (some ⟨pos⟩)).2 = 0) := by
  refine ⟨?_, ?_, ?_⟩
  · intro msgs newHID h
    rw [poll_ok c eng rules pos msgs newHID hpos h]
    by_cases hlt : pos < newHID
    · exact ⟨newHID, by simp [hlt], Nat.le_of_lt hlt⟩
    · exact ⟨pos, by simp [hlt], Nat.le_refl pos⟩
  · intro e h hnf
    rw [poll_err c eng rules pos e hpos h, if_neg (by simp [hnf])]
  · intro e h hnf
    rw [poll_err c eng rules pos e hpos h, if_pos hnf]
    cases hc : c.getCurrentHistoryID with
    | none => exact ⟨Or.inl ⟨rfl, rfl⟩, rfl⟩
    | some hid => exact ⟨Or.inr ⟨hid, rfl, rfl⟩, rfl⟩

/-- Gmail client returning a successful fetch advancing 100 to 150. -/
def wClientOk : GmailClientModel :=
  ⟨some 999, fun h => if h = 100 then HistoryResult.ok [] 150 else .err "connection error"⟩

/-- Gmail client whose history fetch reports the not-found condition and whose
high-water fetch returns 500. -/
def wClientReset : GmailClientModel :=
  ⟨some 500, fun _ => HistoryResult.err "googleapi: Error 404: notFound"⟩

/-- Gmail client whose history fetch fails with a transient error. -/
def wClientDown : GmailClientModel :=
  ⟨none, fun _ => HistoryResult.err "connection error"⟩

/-- Witness for C1: from Tracking(100) a successful fetch to 150 persists a
value at least 100; a transient error leaves 100 persisted; the not-found
condition resets the persisted cursor to the fresh high-water id 500 with no
dispatches. -/
theorem cursor_monotonic_witness :
    (∃ p2, (poll wClientOk engOK [] (some ⟨100⟩)).1 = some ⟨p2⟩ ∧ 100 ≤ p2) ∧
    (poll wClientDown engOK [] (some ⟨100⟩)).1 = some ⟨100⟩ ∧
    (((wClientReset.getCurrentHistoryID = none ∧
        (poll wClientReset engOK [] (some ⟨100⟩)).1 = some ⟨100⟩) ∨
      (∃ hid, wClientReset.getCurrentHistoryID = some hid ∧
        (poll wClientReset engOK [] (some ⟨100⟩)).1 = some ⟨hid⟩)) ∧
      countDispatch (poll wClientReset engOK [] (some ⟨100⟩)).2 = 0) :=
  ⟨(cursor_monotonic wClientOk engOK [] 100 (by decide)).1 [] 150 rfl,
   (cursor_monotonic wClientDown engOK [] 100 (by decide)).2.1 "connection error" rfl
     (by decide),
   (cursor_monotonic wClientReset engOK [] 100 (by decide)).2.2
     "googleapi: Error 404: notFound" rfl (by decide)⟩

/-- C10: within a successful tick from Tracking(`pos`) that advances the
cursor to `newHID`, the trace is exactly the history fetch, then the cursor
persist, then the per-message dispatches — the persist strictly precedes
every message evaluation; the persisted state is `newHID`; and the next tick,
whatever the client then returns, fetches history starting at `newHID`, so the
already-covered window is not re-fetched. -/
theorem persist_before_evaluate (c : GmailClientModel) (eng : TemplateEngine)
    (rules : List GmailRule) (pos : Nat) (msgs : List HistoryMessage) (newHID : Nat)
    (hpos : 0 < pos) (hist : c.getHistory pos = HistoryResult.ok msgs newHID)
    (hadv : pos < newHID) :
    (poll c eng rules (some ⟨pos⟩)).2
      = PollEvent.fetchHistory pos :: PollEvent.save newHID ::
          dispatchEvents eng rules msgs ∧
    (∀ e ∈ dispatchEvents eng rules msgs, ∃ call, e = PollEvent.dispatch call) ∧
    (poll c eng rules (some ⟨pos⟩)).1 = some ⟨newHID⟩ ∧
    (∀ c2 : GmailClientModel,
      ((poll c2 eng rules (some ⟨newHID⟩)).2).head? = some (PollEvent.fetchHistory newHID)) := by
  refine ⟨?_, ?_, ?_, ?_⟩
  · rw [poll_ok c eng rules pos msgs newHID hpos hist]
    simp [hadv]
  · intro e he
    simp only [dispatchEvents, List.mem_flatten, List.mem_map] at he
    obtain ⟨l, ⟨m, hm, rfl⟩, he⟩ := he
    obtain ⟨call, hcall, rfl⟩ := List.mem_map.mp he
    exact ⟨call, rfl⟩
  · rw [poll_ok c eng rules pos msgs newHID hpos hist]
    simp [hadv]
  · intro c2
    have hnpos : 0 < newHID := Nat.lt_of_le_of_lt (Nat.zero_le pos) hadv
    cases h2 : c2.getHistory newHID with
    | ok msgs2 nh2 =>
      rw [poll_ok c2 eng rules newHID msgs2 nh2 hnpos h2]
      rfl
    | err e2 =>
      rw [poll_err c2 eng rules newHID e2 hnpos h2]
      by_cases hnf : isNotFoundErr e2
      · rw [if_pos hnf]
        cases c2.getCurrentHistoryID <;> rfl
      · rw [if_neg hnf]
        rfl

/-- Client for the C10 witness: fetching from 100 returns one message and the
new high-water id 200. -/
def wClientAdvance : GmailClientModel :=
  ⟨some 999, fun h => if h = 100 then HistoryResult.ok [cexMsg] 200 else .err "connection error"⟩

/-- Witness for C10 at a concrete client: the trace persists 200 before the
single message dispatch, and the next tick fetches from 200. -/
theorem persist_before_evaluate_witness :
    (poll wClientAdvance engOK [cexRuleA] (some ⟨100⟩)).2
      = PollEvent.fetchHistory 100 :: PollEvent.save 200 ::
          dispatchEvents engOK [cexRuleA] [cexMsg] ∧
    (∀ e ∈ dispatchEvents engOK [cexRuleA] [cexMsg], ∃ call, e = PollEvent.dispatch call) ∧
    (poll wClientAdvance engOK [cexRuleA] (some ⟨100⟩)).1 = some ⟨200⟩ ∧
    (∀ c2 : GmailClientModel,
      ((poll c2 engOK [cexRuleA] (some ⟨200⟩)).2).head?
        = some (PollEvent.fetchHistory 200)) :=
  persist_before_evaluate wClientAdvance engOK [cexRuleA] 100 [cexMsg] 200 (by decide) rfl
    (by decide)

/-- Client for the C4 counterexample: one tick returns the same message
twice. -/
def wClientDup : GmailClientModel :=
  ⟨some 999,
   fun h => if h = 100 then HistoryResult.ok [cexMsg, cexMsg] 200 else .err "connection error"⟩

/-- C4 counterexample: a poll tick whose fetch returns two identical history
entries (same message id, hence the same dedup key under any keying) produces
two gateway dispatches — no Deduplicator runs on the pull path, so more than
one dispatch is produced for duplicate entries inside one ttl window. -/
theorem gmail_poll_no_dedup_cex :
    countDispatch (poll wClientDup engOK [cexRuleA] (some ⟨100⟩)).2 = 2 := by decide

/-- C4 amended: the pull path performs no deduplication at all — in any
successful tick the number of gateway dispatches equals the sum over the
fetched entries of the number of matching notify rules each entry triggers,
every entry being processed independently of every other. -/
theorem gmail_poll_dispatch_count (c : GmailClientModel) (eng : TemplateEngine)
    (rules : List GmailRule) (pos : Nat) (msgs : List HistoryMessage) (newHID : Nat)
    (hpos : 0 < pos) (hist : c.getHistory pos = HistoryResult.ok msgs newHID) :
    countDispatch (poll c eng rules (some ⟨pos⟩)).2
      = (msgs.map fun m => (evaluateRules eng rules m).length).sum := by
  rw [poll_ok c eng rules pos msgs newHID hpos hist]
  by_cases hlt : pos < newHID
  · simp only [hlt, if_true]
    rw [countDispatch_append, countDispatch_dispatchEvents eng rules msgs]
    have h2 : countDispatch [PollEvent.fetchHistory pos, PollEvent.save newHID] = 0 := rfl
    rw [h2, Nat.zero_add]
  · simp only [hlt, if_false]
    rw [countDispatch_append, countDispatch_dispatchEvents eng rules msgs]
    have h2 : countDispatch [PollEvent.fetchHistory pos] = 0 := rfl
    rw [h2, Nat.zero_add]

/-- Witness for C4 amended at the duplicate-message client: the dispatch count
of the tick equals the per-entry sum (1 + 1). -/
theorem gmail_poll_dispatch_count_witness :
    countDispatch (poll wClientDup engOK [cexRuleA] (some ⟨100⟩)).2
      = (([cexMsg, cexMsg].map fun m => (evaluateRules engOK [cexRuleA] m).length)).sum :=
  gmail_poll_dispatch_count wClientDup engOK [cexRuleA] 100 [cexMsg, cexMsg] 200 (by decide) rfl

/-! ## Webhook handler lemmas and claims -/

/-- Every exit of the post-normalization tail of the Trello handler carries
status 200. -/
theorem trelloProcess_status (cfg : TrelloConfig) (eng : TemplateEngine) (lim : Limiter)
    (now : Nat) (p : TrelloPayload) (et : String) :
    trelloStatus (trelloProcess cfg eng lim now p et).1 = 200 := by
  unfold trelloProcess
  dsimp only
  split
  · rfl
  · split <;> rfl

/-- C7: once an inbound POST request has its body read successfully and passes
signature verification, both webhook handlers answer HTTP 200 regardless of
the downstream outcome (parse failure, ignored action, unwatched or
comment-only list, missing card id, dedup suppression, no matching rule, and
dispatch — whose gateway error is only logged — all acknowledge success). -/
theorem webhook_always_ack :
    (∀ (cfg : TrelloConfig) (eng : TemplateEngine) (lim : Limiter) (now : Nat)
        (req : TrelloRequest), req.method = HMethod.post → req.bodyReadOk = true →
        verifyTrelloSignature cfg.secret req.sigValid = true →
        trelloStatus (trelloServeHTTP cfg eng lim now req).1 = 200) ∧
    (∀ (cfg : GitHubConfig) (lim : Limiter) (now : Nat) (req : GitHubRequest),
        req.method = HMethod.post → req.bodyReadOk = true →
        verifyGitHubSignature cfg.secret req.sigValid = true →
        githubStatus (githubServeHTTP cfg lim now req).1 = 200) := by
  constructor
  · intro cfg eng lim now req hm hb hs
    rcases req with ⟨method, bodyOk, sigv, payload⟩
    dsimp only at hm hb hs
    subst hm
    subst hb
    unfold trelloServeHTTP
    dsimp only
    rw [if_neg (by simp)]
    rw [if_neg (by rw [hs]; simp)]
    rcases payload with _ | p
    · rfl
    · dsimp only
      split
      · split
        · rfl
        · split
          · rfl
          · split
            · rfl
            · exact trelloProcess_status cfg eng lim now p "card_moved"
      · split
        · split
          · rfl
          · exact trelloProcess_status cfg eng lim now p "comment_added"
        · rfl
  · intro cfg lim now req hm hb hs
    rcases req with ⟨method, bodyOk, sigv, ghEvent, payload⟩
    dsimp only at hm hb hs
    subst hm
    subst hb
    unfold githubServeHTTP
    dsimp only
    rw [if_neg (by simp)]
    rw [if_neg (by rw [hs]; simp)]
    split
    · rfl
    · split
      · rfl
      · split <;> rfl

/-- Trello configuration fixture: two watched lists and the two rules. -/
def wTrelloCfg : TrelloConfig :=
  ⟨"", [("ready", "list-ready-id"), ("questions", "list-questions-id")],
   [wTrelloRule1, wTrelloRule2]⟩

/-- A card-move payload into the watched "ready" list. -/
def wPayload : TrelloPayload :=
  ⟨"updateCard", "card1", "My Card", "list-ready-id", "Ready", "Dev"⟩

/-- A well-formed POST request carrying the card-move payload. -/
def wTrelloReq : TrelloRequest := ⟨HMethod.post, true, true, some wPayload⟩

/-- GitHub request fixture: completed workflow run, conclusion success, PR 11. -/
def wReqGHSuccess : GitHubRequest :=
  ⟨HMethod.post, true, true, "workflow_run", ⟨"completed", "user/repo", 0, "", [], "success", [11]⟩⟩

/-- GitHub request fixture: completed workflow run, conclusion failure, PR 12. -/
def wReqGHFail : GitHubRequest :=
  ⟨HMethod.post, true, true, "workflow_run", ⟨"completed", "user/repo", 0, "", [], "failure", [12]⟩⟩

/-- Witness for C7 at concrete requests through both handlers. -/
theorem webhook_always_ack_witness :
    trelloStatus (trelloServeHTTP wTrelloCfg engOK ⟨300, []⟩ 0 wTrelloReq).1 = 200 ∧
    githubStatus (githubServeHTTP ⟨"", "all"⟩ ⟨300, []⟩ 0 wReqGHSuccess).1 = 200 :=
  ⟨webhook_always_ack.1 wTrelloCfg engOK ⟨300, []⟩ 0 wTrelloReq rfl rfl rfl,
   webhook_always_ack.2 ⟨"", "all"⟩ ⟨300, []⟩ 0 wReqGHSuccess rfl rfl rfl⟩

/-- The tail of the Trello handler on a fresh dedup key and no matching rule:
the key is recorded first (at the current time), then the rule lookup fails
and the handler exits quietly. -/
theorem trelloProcess_noRule (cfg : TrelloConfig) (eng : TemplateEngine) (lim : Limiter)
    (now : Nat) (p : TrelloPayload) (et : String)
    (hfresh : lookupKey lim.seen (trelloKey p) = none)
    (hnorule : findRule cfg.rules et (listIDToName cfg p.listAfterID) = none) :
    trelloProcess cfg eng lim now p et
      = (TrelloOutcome.okNoRule, ⟨lim.ttl, (trelloKey p, now) :: lim.seen⟩) := by
  have hallow : lim.Allow (trelloKey p) now
      = (true, ⟨lim.ttl, (trelloKey p, now) :: lim.seen⟩) := by
    unfold Limiter.Allow
    rw [hfresh]
  unfold trelloProcess
  dsimp only
  rw [hallow]
  rw [if_neg (by simp)]
  rw [hnorule]

/-- The tail of the Trello handler on a key recorded within the ttl window:
suppressed, limiter unchanged. -/
theorem trelloProcess_rateLimited (cfg : TrelloConfig) (eng : TemplateEngine) (lim : Limiter)
    (now2 : Nat) (p : TrelloPayload) (et : String) (last : Nat)
    (hseen : lookupKey lim.seen (trelloKey p) = some last)
    (hwin : now2 - last < lim.ttl) :
    trelloProcess cfg eng lim now2 p et = (TrelloOutcome.okRateLimited, lim) := by
  have hallow : lim.Allow (trelloKey p) now2 = (false, lim) := by
    unfold Limiter.Allow
    rw [hseen]
    simp [hwin]
  unfold trelloProcess
  dsimp only
  rw [hallow]
  rfl

/-- A POST card-move request that passes verification and normalization
reaches the dedup-then-match tail with the event type "card_moved". -/
theorem trelloServeHTTP_route (cfg : TrelloConfig) (eng : TemplateEngine) (lim : Limiter)
    (now : Nat) (req : TrelloRequest) (p : TrelloPayload)
    (hm : req.method = HMethod.post) (hb : req.bodyReadOk = true)
    (hs : verifyTrelloSignature cfg.secret req.sigValid = true)
    (hp : req.payload = some p) (ht : p.actionType = "updateCard")
    (hl : ¬ p.listAfterID = "") (hw : ¬ listIDToName cfg p.listAfterID = "")
    (hq : ¬ listIDToName cfg p.listAfterID = "questions") :
    trelloServeHTTP cfg eng lim now req = trelloProcess cfg eng lim now p "card_moved" := by
  rcases req with ⟨method, bodyOk, sigv, payload⟩
  dsimp only at hm hb hs hp
  subst hm
  subst hb
  subst hp
  unfold trelloServeHTTP
  dsimp only
  rw [if_neg (by simp)]
  rw [if_neg (by rw [hs]; simp)]
  rw [if_pos ht, if_neg hl, if_neg hw, if_neg hq]

/-- C9: the push-path handler consumes the dedup key before rule matching —
a normalized card-move event whose key is fresh but which matches no rule
exits quietly with zero dispatches while still recording its key at the
current time, and the identical request arriving within ttl is then
suppressed by the deduplicator. -/
theorem dedup_key_recorded_without_rule (cfg : TrelloConfig) (eng : TemplateEngine)
    (lim : Limiter) (now now2 : Nat) (req : TrelloRequest) (p : TrelloPayload)
    (hm : req.method = HMethod.post) (hb : req.bodyReadOk = true)
    (hs : verifyTrelloSignature cfg.secret req.sigValid = true)
    (hp : req.payload = some p) (ht : p.actionType = "updateCard")
    (hl : ¬ p.listAfterID = "") (hw : ¬ listIDToName cfg p.listAfterID = "")
    (hq : ¬ listIDToName cfg p.listAfterID = "questions")
    (hfresh : lookupKey lim.seen (trelloKey p) = none)
    (hnorule : findRule cfg.rules "card_moved" (listIDToName cfg p.listAfterID) = none)
    (hwin : now2 - now < lim.ttl) :
    (trelloServeHTTP cfg eng lim now req).1 = TrelloOutcome.okNoRule ∧
    trelloDispatches (trelloServeHTTP cfg eng lim now req).1 = [] ∧
    lookupKey ((trelloServeHTTP cfg eng lim now req).2).seen (trelloKey p) = some now ∧
    (trelloServeHTTP cfg eng ((trelloServeHTTP cfg eng lim now req).2) now2 req).1
      = TrelloOutcome.okRateLimited := by
  have h1 := trelloServeHTTP_route cfg eng lim now req p hm hb hs hp ht hl hw hq
  have h2 := trelloProcess_noRule cfg eng lim now p "card_moved" hfresh hnorule
  rw [h1, h2]
  refine ⟨rfl, rfl, lookupKey_cons_self _ _ _, ?_⟩
  have h3 := trelloServeHTTP_route cfg eng ⟨lim.ttl, (trelloKey p, now) :: lim.seen⟩ now2 req p
    hm hb hs hp ht hl hw hq
  rw [h3]
  exact congrArg Prod.fst
    (trelloProcess_rateLimited cfg eng ⟨lim.ttl, (trelloKey p, now) :: lim.seen⟩ now2 p
      "card_moved" now (lookupKey_cons_self _ _ _) hwin)

/-- Trello configuration with a watched list but an empty rule list, so no
rule can match. -/
def wTrelloCfgNoRules : TrelloConfig := ⟨"", [("ready", "list-ready-id")], []⟩

/-- Witness for C9: a concrete card-move request with no matching rule exits
quietly, records its key at time 0, and its replay at time 100 (inside the
300-second ttl) is rate limited. -/
theorem dedup_key_recorded_without_rule_witness :
    (trelloServeHTTP wTrelloCfgNoRules engOK ⟨300, []⟩ 0 wTrelloReq).1
      = TrelloOutcome.okNoRule ∧
    trelloDispatches (trelloServeHTTP wTrelloCfgNoRules engOK ⟨300, []⟩ 0 wTrelloReq).1 = [] ∧
    lookupKey ((trelloServeHTTP wTrelloCfgNoRules engOK ⟨300, []⟩ 0 wTrelloReq).2).seen
      (trelloKey wPayload) = some 0 ∧
    (trelloServeHTTP wTrelloCfgNoRules engOK
        ((trelloServeHTTP wTrelloCfgNoRules engOK ⟨300, []⟩ 0 wTrelloReq).2) 100 wTrelloReq).1
      = TrelloOutcome.okRateLimited :=
  dedup_key_recorded_without_rule wTrelloCfgNoRules engOK ⟨300, []⟩ 0 100 wTrelloReq wPayload
    rfl rfl rfl rfl rfl (by decide) (by decide) (by decide) rfl rfl (by decide)

/-- C8: in the operator-selected failures-only mode (`notify_mode =
"failures"`), a terminal GitHub CI event (check run or workflow run) with a
successful conclusion is treated as Ignore — zero gateway dispatches, still
acknowledged with 200 — while a non-success conclusion still produces the
dispatch when the dedup key is fresh. -/
theorem github_failures_mode (cfg : GitHubConfig) (lim : Limiter) (now : Nat)
    (req : GitHubRequest) (hmode : cfg.notifyMode = "failures")
    (hm : req.method = HMethod.post) (hb : req.bodyReadOk = true)
    (hs : verifyGitHubSignature cfg.secret req.sigValid = true)
    (hci : req.ghEvent = "check_run" ∨ req.ghEvent = "workflow_run")
    (hterm : githubTerminalOk req.ghEvent req.payload.action = true) :
    (githubConclusionOf req = "success" →
      (githubServeHTTPCurrent cfg lim now req).1 = GitHubOutcome.okSkippedSuccess ∧
      githubDispatches (githubServeHTTPCurrent cfg lim now req).1 = [] ∧
      githubStatus (githubServeHTTPCurrent cfg lim now req).1 = 200) ∧
    (¬ githubConclusionOf req = "success" →
      (lim.Allow ("github:" ++ req.ghEvent ++ ":" ++ toString (githubResolvePR req.payload))
          now).1 = true →
      (githubServeHTTPCurrent cfg lim now req).1
        = GitHubOutcome.okDispatched (githubDispatchCall req (githubResolvePR req.payload))) := by
  have hev : relevantGitHubEvent req.ghEvent = true := by
    rcases hci with h | h <;> rw [h] <;> rfl
  rcases req with ⟨method, bodyOk, sigv, ghEvent, payload⟩
  dsimp only at hm hb hs hci hterm hev ⊢
  subst hm
  subst hb
  constructor
  · intro hconc
    have hall : githubServeHTTPCurrent cfg lim now ⟨HMethod.post, true, sigv, ghEvent, payload⟩
        = (GitHubOutcome.okSkippedSuccess, lim) := by
      unfold githubServeHTTPCurrent
      dsimp only
      rw [if_neg (by simp)]
      rw [if_neg (by rw [hs]; simp)]
      rw [if_neg (by rw [hev]; simp)]
      rw [if_neg (by rw [hterm]; simp)]
      rw [if_pos ⟨hmode, hci, hconc⟩]
    rw [hall]
    exact ⟨rfl, rfl, rfl⟩
  · intro hconc hallow
    unfold githubServeHTTPCurrent
    dsimp only
    rw [if_neg (by simp)]
    rw [if_neg (by rw [hs]; simp)]
    rw [if_neg (by rw [hev]; simp)]
    rw [if_neg (by rw [hterm]; simp)]
    rw [if_neg (by intro h; exact hconc h.2.2)]
    rw [if_neg (by rw [hallow]; simp)]

/-- Witness for C8, mirroring the repository's two failures-mode tests: with
`notify_mode = "failures"`, the successful workflow run produces no dispatch
(yet answers 200), and the failed workflow run produces the dispatch. -/
theorem github_failures_mode_witness :
    (githubServeHTTPCurrent ⟨"", "failures"⟩ ⟨300, []⟩ 0 wReqGHSuccess).1
      = GitHubOutcome.okSkippedSuccess ∧
    githubDispatches (githubServeHTTPCurrent ⟨"", "failures"⟩ ⟨300, []⟩ 0 wReqGHSuccess).1
      = [] ∧
    githubStatus (githubServeHTTPCurrent ⟨"", "failures"⟩ ⟨300, []⟩ 0 wReqGHSuccess).1 = 200 ∧
    (githubServeHTTPCurrent ⟨"", "failures"⟩ ⟨300, []⟩ 0 wReqGHFail).1
      = GitHubOutcome.okDispatched (githubDispatchCall wReqGHFail 12) :=
  have h1 := (github_failures_mode ⟨"", "failures"⟩ ⟨300, []⟩ 0 wReqGHSuccess rfl rfl rfl rfl
    (Or.inr rfl) rfl).1 rfl
  have h2 := (github_failures_mode ⟨"", "failures"⟩ ⟨300, []⟩ 0 wReqGHFail rfl rfl rfl rfl
    (Or.inr rfl) rfl).2 (by decide) rfl
  ⟨h1.1, h1.2.1, h1.2.2, h2⟩

end OpenclawRelay
